import Mathlib

/- Shallow embedding of the TinyG temperature-controller core
   (src/firmware/temperature/tinyg_tc.c): tick scheduler, temperature
   sensor, PID controller and heater state machine.  C doubles are
   embedded as exact rationals and uint8 counters as naturals reduced
   mod 256 wherever a wraparound is reachable.  Constants and enum
   codes that live in the device headers (tinyg_tc.h, kinen_core.h),
   which are not among the sources, are modelled from the spec and
   carry a doc comment saying so.  The raw ADC sampling path
   (adc_read and the SAMPLE macro) is hardware-facing; the embedding
   takes the stream of converted temperature samples as a function
   parameter, called draw below. -/

namespace TinyG

set_option maxRecDepth 40000

/-- Heater state machine states (the HEATER_* state enum of tinyg_tc.h,
referenced throughout heater_turn_on, heater_turn_off and
heater_callback in tinyg_tc.c). -/
inductive HeaterStateE
  | HEATER_UNINIT
  | HEATER_OFF
  | HEATER_ON
  | HEATER_HEATING
  | HEATER_AT_TEMPERATURE
  | HEATER_COOLING
  | HEATER_SHUTDOWN
  deriving DecidableEq

open HeaterStateE

/-- Heater codes (the HEATER_* code enum of tinyg_tc.h): HEATER_OK is
the all-clear code assigned at the top of heater_callback, the two
TIMED_OUT codes are the fatal fault codes set on shutdown. -/
inductive HeaterCodeE
  | HEATER_OK
  | HEATER_AMBIENT_TIMED_OUT
  | HEATER_REGULATION_TIMED_OUT
  deriving DecidableEq

open HeaterCodeE

/-- Kinen status codes used by the embedded functions (SC_* of
kinen_core.h). -/
inductive ScCode
  | SC_OK
  | SC_ERROR
  | SC_EAGAIN
  | SC_NOOP
  deriving DecidableEq

open ScCode

/-- Sensor state machine states (SENSOR_* state enum of tinyg_tc.h). -/
inductive SensorStateE
  | SENSOR_UNINIT
  | SENSOR_HAS_NO_DATA
  | SENSOR_HAS_DATA
  | SENSOR_SHUTDOWN
  deriving DecidableEq

open SensorStateE

/-- Sensor codes (SENSOR_* code enum of tinyg_tc.h). -/
inductive SensorCodeE
  | SENSOR_OK
  | SENSOR_BAD_READINGS
  | SENSOR_DISCONNECTED
  | SENSOR_NO_POWER
  deriving DecidableEq

open SensorCodeE

/-- Modelled from the spec: HEATER_TICK_SECONDS of the missing
tinyg_tc.h header; the spec fixes the heater tick period at 100 ms
(0.1 s per tick). -/
def HEATER_TICK_SECONDS : ℚ := 1/10

/-- Modelled from the spec: HEATER_AMBIENT_TIMEOUT of the missing
header; the spec scenario uses ambient_timeout = 30.0 s. -/
def HEATER_AMBIENT_TIMEOUT : ℚ := 30

/-- Modelled from the spec: HEATER_REGULATION_TIMEOUT of the missing
header; the spec gives no number, so a regulation budget larger than
the ambient timeout is chosen. -/
def HEATER_REGULATION_TIMEOUT : ℚ := 300

/-- Modelled from the spec: HEATER_AMBIENT_TEMPERATURE of the missing
header; the spec scenario uses ambient_floor = 50.0. -/
def HEATER_AMBIENT_TEMPERATURE : ℚ := 50

/-- Modelled from the spec: HEATER_OVERHEAT_TEMPERATURE of the missing
header; the spec gives no number, an overheat ceiling above any
setpoint in use is chosen. -/
def HEATER_OVERHEAT_TEMPERATURE : ℚ := 260

/-- Modelled from the spec: SURFACE_OF_THE_SUN of the missing header,
the sentinel returned by sensor_get_temperature outside HasData; the
spec only requires a fixed value far above any physically valid
temperature. -/
def SURFACE_OF_THE_SUN : ℚ := 5505

/-- Modelled from the spec: HOTTER_THAN_THE_SUN of the missing header,
the unrecoverable-fault sentinel returned when the retry budget is
exhausted; the spec requires it higher than any legitimate reading
(in particular above SURFACE_OF_THE_SUN, so that the callback's
comparison detects it). -/
def HOTTER_THAN_THE_SUN : ℚ := 10000

/-- Modelled from the spec: ABSOLUTE_ZERO of the missing header, the
initial value of the confirmed temperature. -/
def ABSOLUTE_ZERO : ℚ := -27315/100

/-- Modelled from the spec: SENSOR_SAMPLES_PER_READING of the missing
header; the source comment bounds it by the 10 sensor ticks per
heater tick. -/
def SENSOR_SAMPLES_PER_READING : ℕ := 10

/-- Modelled from the spec: SENSOR_RETRIES of the missing header (the
retry budget); the spec gives no number. -/
def SENSOR_RETRIES : ℕ := 5

/-- Modelled from the spec: SENSOR_VARIANCE_RANGE of the missing
header (the variance bound); the spec gives no number. -/
def SENSOR_VARIANCE_RANGE : ℚ := 20

/-- Modelled from the spec: SENSOR_DISCONNECTED_TEMPERATURE of the
missing header, the false reading level indicating a disconnected
thermocouple; the spec gives no number. -/
def SENSOR_DISCONNECTED_TEMPERATURE : ℚ := 400

/-- Modelled from the spec: SENSOR_NO_POWER_TEMPERATURE of the missing
header, the false reading level indicating an unpowered amplifier;
the spec gives no number. -/
def SENSOR_NO_POWER_TEMPERATURE : ℚ := -50

/-- Modelled from the spec: PID_MAX_OUTPUT of the missing header, the
configured saturation maximum; per spec section 9 it is distinct
from the hard-coded clamp range of pid_calc. -/
def PID_MAX_OUTPUT : ℚ := 100

/-- Modelled from the spec: PID_MIN_OUTPUT of the missing header, the
configured saturation minimum; per spec section 9 it is distinct
from the hard-coded clamp range of pid_calc. -/
def PID_MIN_OUTPUT : ℚ := 0

/-- Modelled from the spec: PID_Kp default gain of the missing header. -/
def PID_Kp : ℚ := 1

/-- Modelled from the spec: PID_Ki default gain of the missing header. -/
def PID_Ki : ℚ := 1/10

/-- Modelled from the spec: PID_Kd default gain of the missing header. -/
def PID_Kd : ℚ := 1/100

/-- Modelled from the spec: PID_OFF state value of the missing header
(set by pid_init; matches the memset-zero representation). -/
def PID_OFF : ℕ := 0

/-- The struct Heater of tinyg_tc.c (fields in source order). -/
structure Heater where
  state : HeaterStateE
  code : HeaterCodeE
  temperature : ℚ
  setpoint : ℚ
  regulation_timer : ℚ
  ambient_timeout : ℚ
  regulation_timeout : ℚ
  ambient_temperature : ℚ
  overheat_temperature : ℚ
  deriving DecidableEq

/-- The struct PIDstruct of tinyg_tc.c (fields in source order; the
state and code bytes are kept as raw naturals). -/
structure PIDstruct where
  state : ℕ
  code : ℕ
  temperature : ℚ
  setpoint : ℚ
  error : ℚ
  prev_error : ℚ
  integral : ℚ
  derivative : ℚ
  output : ℚ
  max : ℚ
  min : ℚ
  Kp : ℚ
  Ki : ℚ
  Kd : ℚ
  deriving DecidableEq

/-- The struct TemperatureSensor of tinyg_tc.c (fields in source
order; the uint8 fields are naturals). -/
structure TemperatureSensor where
  state : SensorStateE
  code : SensorCodeE
  samples_per_reading : ℕ
  samples : ℕ
  retries : ℕ
  temperature : ℚ
  previous_temp : ℚ
  accumulator : ℚ
  variance : ℚ
  disconnect_temperature : ℚ
  no_power_temperature : ℚ
  deriving DecidableEq

/-- heater_init of tinyg_tc.c: memset to zero (code HEATER_OK,
temperature, setpoint and regulation_timer all zero), then the four
configured constants are restored and the state set to HEATER_OFF. -/
def heater_init : Heater :=
  ⟨HEATER_OFF, HEATER_OK, 0, 0, 0,
   HEATER_AMBIENT_TIMEOUT, HEATER_REGULATION_TIMEOUT,
   HEATER_AMBIENT_TEMPERATURE, HEATER_OVERHEAT_TEMPERATURE⟩

/-- heater_turn_on of tinyg_tc.c: switch on heater.state with a C
fall-through from the HEATER_SHUTDOWN case (which runs heater_init)
into the HEATER_OFF and HEATER_COOLING cases that set HEATER_ON;
states without a case label are untouched and SC_OK is returned. -/
def heater_turn_on (h : Heater) : Heater × ScCode :=
  if h.state = HEATER_UNINIT then (h, SC_ERROR)
  else if h.state = HEATER_SHUTDOWN then
    ({heater_init with state := HEATER_ON}, SC_OK)
  else if h.state = HEATER_OFF ∨ h.state = HEATER_COOLING then
    ({h with state := HEATER_ON}, SC_OK)
  else (h, SC_OK)

/-- sensor_get_temperature of tinyg_tc.c. -/
def sensor_get_temperature (sen : TemperatureSensor) : ℚ :=
  if sen.state = SENSOR_HAS_DATA then sen.temperature
  else SURFACE_OF_THE_SUN

/-- sensor_get_state of tinyg_tc.c. -/
def sensor_get_state (sen : TemperatureSensor) : SensorStateE := sen.state

/-- sensor_start_temperature_reading of tinyg_tc.c. -/
def sensor_start_temperature_reading (sen : TemperatureSensor) :
    TemperatureSensor :=
  {sen with samples := 0}

/-- sensor_init of tinyg_tc.c: memset to zero (code SENSOR_OK, samples,
previous_temp and accumulator zero) and the configured fields
restored. -/
def sensor_init : TemperatureSensor :=
  ⟨SENSOR_HAS_NO_DATA, SENSOR_OK, SENSOR_SAMPLES_PER_READING, 0,
   SENSOR_RETRIES, ABSOLUTE_ZERO, 0, 0, SENSOR_VARIANCE_RANGE,
   SENSOR_DISCONNECTED_TEMPERATURE, SENSOR_NO_POWER_TEMPERATURE⟩

/-- The retry loop of _sensor_sample in tinyg_tc.c: for i from the
retry budget down to 1, the current sample is accepted when it lies
within variance of previous_temp, otherwise a fresh sample is drawn
(draw k, k counting the draws already consumed) and the budget
decreases; none models the HOTTER_THAN_THE_SUN give-up return. -/
def sensorSampleLoop (v p : ℚ) (draw : ℕ → ℚ) :
    ℚ → ℕ → ℕ → Option ℚ
  | _, 0, _ => none
  | s, i + 1, k =>
    if |s - p| < v then some s
    else sensorSampleLoop v p draw (draw k) i (k + 1)

/-- The function _sensor_sample of tinyg_tc.c.  The first component of
the result is the returned temperature (HOTTER_THAN_THE_SUN when the
retry budget is exhausted), the second the resulting previous_temp
field (updated exactly when a sample is accepted, which on a new
period happens unconditionally). -/
def sensorSample (sen : TemperatureSensor) (draw : ℕ → ℚ)
    (new_period : Bool) : ℚ × ℚ :=
  let sample := draw 0
  if new_period then (sample, sample)
  else
    match sensorSampleLoop sen.variance sen.previous_temp draw sample
        sen.retries 1 with
    | some s => (s, s)
    | none => (HOTTER_THAN_THE_SUN, sen.previous_temp)

/-- sensor_callback of tinyg_tc.c (the 10 ms sample tick): clears the
code, no-ops when uninitialized or shut down, zeroes the accumulator
on a fresh window, samples through _sensor_sample, shuts down on the
unrecoverable sentinel, accumulates, and on the Nth sample records
the window average and classifies it. -/
def sensor_callback (sen0 : TemperatureSensor) (draw : ℕ → ℚ) :
    TemperatureSensor × SensorCodeE :=
  let sen := {sen0 with code := SENSOR_OK}
  if sen.state = SENSOR_UNINIT ∨ sen.state = SENSOR_SHUTDOWN then
    (sen, SENSOR_OK)
  else
    let new_period : Bool := sen.samples == 0
    let sen1 := if new_period then {sen with accumulator := 0} else sen
    let res := sensorSample sen1 draw new_period
    let sen2 := {sen1 with previous_temp := res.2}
    if res.1 > SURFACE_OF_THE_SUN then
      ({sen2 with state := SENSOR_SHUTDOWN, code := SENSOR_BAD_READINGS},
        SENSOR_BAD_READINGS)
    else
      let sen3 := {sen2 with accumulator := sen2.accumulator + res.1,
                             samples := (sen2.samples + 1) % 256}
      if sen3.samples < sen3.samples_per_reading then (sen3, SENSOR_OK)
      else
        let sen4 := {sen3 with
          temperature := sen3.accumulator / (sen3.samples : ℚ)}
        if sen4.temperature > SENSOR_DISCONNECTED_TEMPERATURE then
          ({sen4 with state := SENSOR_HAS_NO_DATA,
                      code := SENSOR_DISCONNECTED}, SENSOR_DISCONNECTED)
        else if sen4.temperature < SENSOR_NO_POWER_TEMPERATURE then
          ({sen4 with state := SENSOR_HAS_NO_DATA,
                      code := SENSOR_NO_POWER}, SENSOR_NO_POWER)
        else ({sen4 with state := SENSOR_HAS_DATA}, SENSOR_OK)

/-- heater_callback of tinyg_tc.c (the 100 ms heater tick), embedded
over the pair of the heater and sensor structs it touches; the last
component is the returned heater.code. -/
def heater_callback (h0 : Heater) (sen0 : TemperatureSensor) :
    Heater × TemperatureSensor × HeaterCodeE :=
  let h := {h0 with code := HEATER_OK}
  if h.state = HEATER_UNINIT ∨ h.state = HEATER_OFF ∨
      h.state = HEATER_SHUTDOWN then
    (h, sen0, HEATER_OK)
  else
    let sen := sensor_start_temperature_reading sen0
    if sensor_get_state sen ≠ SENSOR_HAS_DATA then (h, sen, HEATER_OK)
    else
      let h1 := {h with temperature := sensor_get_temperature sen}
      if h1.state = HEATER_COOLING then (h1, sen, HEATER_OK)
      else if h1.state = HEATER_ON then
        ({h1 with regulation_timer := 0, state := HEATER_HEATING},
          sen, HEATER_OK)
      else if h1.state = HEATER_HEATING then
        let h2 := {h1 with
          regulation_timer := h1.regulation_timer + HEATER_TICK_SECONDS}
        if h2.temperature < h2.ambient_temperature ∧
            h2.regulation_timer > h2.ambient_timeout then
          ({h2 with state := HEATER_SHUTDOWN,
                    code := HEATER_AMBIENT_TIMED_OUT},
            sen, HEATER_AMBIENT_TIMED_OUT)
        else if h2.temperature < h2.setpoint ∧
            h2.regulation_timer > h2.regulation_timeout then
          ({h2 with state := HEATER_SHUTDOWN,
                    code := HEATER_REGULATION_TIMED_OUT},
            sen, HEATER_REGULATION_TIMED_OUT)
        else (h2, sen, HEATER_OK)
      else (h1, sen, HEATER_OK)

/-- The constant epsilon defined in tinyg_tc.c (anti-windup threshold). -/
def epsilon : ℚ := 1/100

/-- The constant dt defined in tinyg_tc.c (integration step). -/
def dt : ℚ := 1/100

/-- The constant MAX defined in tinyg_tc.c (hard-coded saturation
ceiling used inside pid_calc). -/
def MAX : ℚ := 4

/-- The constant MIN defined in tinyg_tc.c (hard-coded saturation
floor used inside pid_calc). -/
def MIN : ℚ := -4

/-- pid_init of tinyg_tc.c: memset to zero, then the configured bounds
and gains restored and state set to PID_OFF. -/
def pid_init : PIDstruct :=
  ⟨PID_OFF, 0, 0, 0, 0, 0, 0, 0, 0,
   PID_MAX_OUTPUT, PID_MIN_OUTPUT, PID_Kp, PID_Ki, PID_Kd⟩

/-- pid_calc of tinyg_tc.c: P, frozen-near-setpoint I, D, the
hard-coded saturation filter on MIN and MAX, and the unconditional
prev_error update; returns the updated struct and the output. -/
def pid_calc (p : PIDstruct) (setpoint temperature : ℚ) :
    PIDstruct × ℚ :=
  let error := setpoint - temperature
  let integral := if |error| > epsilon then p.integral + error * dt
                  else p.integral
  let derivative := (error - p.prev_error) / dt
  let output0 := p.Kp * error + p.Ki * integral + p.Kd * derivative
  let output := if output0 > MAX then MAX
                else if output0 < MIN then MIN
                else output0
  ({p with error := error, integral := integral,
           derivative := derivative, output := output,
           prev_error := error}, output)

/-- The tick-relevant part of struct Device of tinyg_tc.c, plus three
instrumentation counters recording how often tick_10ms, tick_100ms
and tick_1sec have been invoked (their bodies, sensor_callback and
heater_callback, are embedded separately above; for the scheduling
claims only the invocation counts matter). -/
structure TickDevice where
  tick_flag : Bool
  tick_100ms_count : ℕ
  tick_1sec_count : ℕ
  n_10ms : ℕ
  n_100ms : ℕ
  n_1sec : ℕ
  deriving DecidableEq

/-- A uint8 pre-decrement as used on the tick counters. -/
def dec8 (n : ℕ) : ℕ := (n + 255) % 256

/-- The tick-counter part of tick_init of tinyg_tc.c: both down
counters start at 10 (the flag byte is zero from static
initialization). -/
def tick_init : TickDevice := ⟨false, 10, 10, 0, 0, 0⟩

/-- tick_callback of tinyg_tc.c: no-op without a pending tick;
otherwise clear the flag, always run the 10 ms handler, then derive
the 100 ms and 1 s cadences from the down counters. -/
def tick_callback (d : TickDevice) : TickDevice × ScCode :=
  if d.tick_flag = false then (d, SC_NOOP)
  else
    let d1 := {d with tick_flag := false, n_10ms := d.n_10ms + 1}
    if dec8 d1.tick_100ms_count ≠ 0 then
      ({d1 with tick_100ms_count := dec8 d1.tick_100ms_count}, SC_OK)
    else
      let d2 := {d1 with tick_100ms_count := 10,
                         n_100ms := d1.n_100ms + 1}
      if dec8 d2.tick_1sec_count ≠ 0 then
        ({d2 with tick_1sec_count := dec8 d2.tick_1sec_count}, SC_OK)
      else
        ({d2 with tick_1sec_count := 10, n_1sec := d2.n_1sec + 1}, SC_OK)

/-- One poll with tick_pending raised: the timer interrupt sets the
flag and the dispatch loop then runs tick_callback. -/
def pollTick (d : TickDevice) : TickDevice :=
  (tick_callback {d with tick_flag := true}).1

/-- k polls from tick_init, each with the flag raised beforehand. -/
def pollIter : ℕ → TickDevice
  | 0 => tick_init
  | k + 1 => pollTick (pollIter k)

/-- The window average computed on the Nth sample of a reading
(accumulator divided by the sample count). -/
def windowMean (a : ℕ → ℚ) (n : ℕ) : ℚ :=
  (Finset.range n).sum a / (n : ℚ)

/-- The sensor state reached mid-window after t accepted samples of
the stream a: code cleared, t samples taken, the previous sample
recorded and the accumulator holding the partial sum. -/
def midSensor (sen : TemperatureSensor) (a : ℕ → ℚ) (t : ℕ) :
    TemperatureSensor :=
  {sen with code := SENSOR_OK, samples := t, previous_temp := a (t - 1), accumulator := (Finset.range t).sum a}

/-- Iterated 10 ms sample ticks from a given sensor state, tick t
drawing the constant stream of the accepted sample a t (the variance
filter then consumes no retries; every accepted-sample sequence of
the window claim arises this way). -/
def sensorRun (sen : TemperatureSensor) (a : ℕ → ℚ) : ℕ → TemperatureSensor
  | 0 => sen
  | t + 1 => (sensor_callback (sensorRun sen a t) (fun _ => a t)).1

/-- The sensor of the ambient-timeout scenario: HasData pinned at a
confirmed 20.0 degrees on every reading. -/
def c1sensor : TemperatureSensor :=
  {sensor_init with state := SENSOR_HAS_DATA, temperature := 20}

/-- The heater of the ambient-timeout scenario: started (state On)
with setpoint 200.0 and the configured timeouts of heater_init. -/
def c1heater : Heater :=
  {heater_init with state := HEATER_ON, setpoint := 200}

/-- n 100 ms heater ticks of the ambient-timeout scenario, threading
the heater and sensor structs through heater_callback. -/
def c1run : ℕ → Heater × TemperatureSensor
  | 0 => (c1heater, c1sensor)
  | n + 1 =>
    let p := c1run n
    let r := heater_callback p.1 p.2
    (r.1, r.2.1)

/-- The heater state reached after 1 + n ticks of the ambient-timeout
scenario while regulation is still under way: Heating, fault-free,
reading 20.0, with n tick periods of regulation time accrued. -/
def c1heating (n : ℕ) : Heater :=
  ⟨HEATER_HEATING, HEATER_OK, 20, 200, (n : ℚ) / 10,
   HEATER_AMBIENT_TIMEOUT, HEATER_REGULATION_TIMEOUT,
   HEATER_AMBIENT_TEMPERATURE, HEATER_OVERHEAT_TEMPERATURE⟩

/-- A heater shut down with the ambient-timeout fault recorded. -/
def c4heater : Heater :=
  {heater_init with state := HEATER_SHUTDOWN,
                    code := HEATER_AMBIENT_TIMED_OUT}

/-- Sensor state for the retry-budget counterexample: a budget of 3
retries, variance bound 1, previous sample 0. -/
def c2sensor : TemperatureSensor :=
  {sensor_init with retries := 3, variance := 1, previous_temp := 0}

/-- Draw stream for the retry-budget counterexample: the original
sample and the first two retries read 10 (out of bounds), the third
and last allowed retry reads 0 (in bounds). -/
def c2draw : ℕ → ℚ := fun k => if k = 3 then 0 else 10

/-- Sensor state for the retry-budget witness: a budget of 2 retries. -/
def w2sensor : TemperatureSensor :=
  {sensor_init with retries := 2, variance := 1, previous_temp := 0}

/-- Draw stream for the retry-budget witness: the original sample is
out of bounds, the first retry is in bounds. -/
def w2draw : ℕ → ℚ := fun k => if k = 1 then 0 else 10

/-- Sensor state for the sampling-window witness: a window of two
samples, retry budget 1, variance bound 1, fresh window. -/
def c3sensor : TemperatureSensor :=
  {sensor_init with samples_per_reading := 2, retries := 1, variance := 1}

/-- Accepted-sample stream for the sampling-window witness. -/
def c3a : ℕ → ℚ := fun _ => 25

/-- Claim C9: the temperature accessor returns the confirmed
temperature exactly in state HasData and otherwise a fixed sentinel
far above any physically valid temperature (above the overheat
ceiling). -/
theorem C9_temperature_accessor (sen : TemperatureSensor) :
    (sen.state = SENSOR_HAS_DATA →
      sensor_get_temperature sen = sen.temperature) ∧
    (sen.state ≠ SENSOR_HAS_DATA →
      sensor_get_temperature sen = SURFACE_OF_THE_SUN) ∧
    HEATER_OVERHEAT_TEMPERATURE < SURFACE_OF_THE_SUN ∧
    SURFACE_OF_THE_SUN = 5505 := by
  refine ⟨fun hs => by simp [sensor_get_temperature, hs],
          fun hs => by simp [sensor_get_temperature, hs],
          by norm_num [HEATER_OVERHEAT_TEMPERATURE, SURFACE_OF_THE_SUN],
          rfl⟩

/-- Witness for C9 at two concrete sensors, one in HasData and one in
HasNoData. -/
theorem C9_witness :
    sensor_get_temperature c1sensor = 20 ∧
    sensor_get_temperature sensor_init = SURFACE_OF_THE_SUN := by
  constructor
  · exact ((C9_temperature_accessor c1sensor).1 rfl).trans rfl
  · exact (C9_temperature_accessor sensor_init).2.1 (of_decide_eq_true rfl)

/-- Claim C10: turn_on in the states On, Heating and AtTemperature is
a no-op returning success: the whole heater struct, in particular
fault code and regulation timer, is unchanged. -/
theorem C10_turn_on_noop (h : Heater)
    (hs : h.state = HEATER_ON ∨ h.state = HEATER_HEATING ∨
      h.state = HEATER_AT_TEMPERATURE) :
    heater_turn_on h = (h, SC_OK) := by
  rcases hs with hs | hs | hs <;> simp [heater_turn_on, hs]

/-- Witness for C10 at a concrete heater in state Heating. -/
theorem C10_witness :
    heater_turn_on {heater_init with state := HEATER_HEATING}
      = ({heater_init with state := HEATER_HEATING}, SC_OK) :=
  C10_turn_on_noop _ (Or.inr (Or.inl rfl))

/-- Claim C8: turn_on from Shutdown reinitializes the heater (clearing
the fault code and restoring the configured constants) and lands in
state On returning success, while turn_on from Uninitialized returns
an error and changes nothing. -/
theorem C8_turn_on (h : Heater) :
    (h.state = HEATER_SHUTDOWN →
      (heater_turn_on h).1.state = HEATER_ON ∧
      (heater_turn_on h).1.code = HEATER_OK ∧
      (heater_turn_on h).1.ambient_timeout = HEATER_AMBIENT_TIMEOUT ∧
      (heater_turn_on h).1.regulation_timeout = HEATER_REGULATION_TIMEOUT ∧
      (heater_turn_on h).1.ambient_temperature = HEATER_AMBIENT_TEMPERATURE ∧
      (heater_turn_on h).1.overheat_temperature = HEATER_OVERHEAT_TEMPERATURE ∧
      (heater_turn_on h).2 = SC_OK) ∧
    (h.state = HEATER_UNINIT → heater_turn_on h = (h, SC_ERROR)) := by
  constructor
  · intro hs
    simp [heater_turn_on, hs, heater_init]
  · intro hs
    simp [heater_turn_on, hs]

/-- Witness for C8 at a concrete shut-down heater and a concrete
uninitialized heater. -/
theorem C8_witness :
    (heater_turn_on c4heater).1.state = HEATER_ON ∧
    (heater_turn_on c4heater).1.code = HEATER_OK ∧
    heater_turn_on {heater_init with state := HEATER_UNINIT}
      = ({heater_init with state := HEATER_UNINIT}, SC_ERROR) :=
  ⟨((C8_turn_on c4heater).1 rfl).1, ((C8_turn_on c4heater).1 rfl).2.1,
   (C8_turn_on _).2 rfl⟩

/-- Claim C6: pid_calc leaves the integral accumulator unchanged when
the absolute error is below epsilon, advances it by exactly
error times dt when above, and always updates prev_error to the new
error. -/
theorem C6_pid_integral (p : PIDstruct) (s t : ℚ) :
    (|s - t| < epsilon → (pid_calc p s t).1.integral = p.integral) ∧
    (|s - t| > epsilon →
      (pid_calc p s t).1.integral = p.integral + (s - t) * dt) ∧
    (pid_calc p s t).1.prev_error = s - t := by
  refine ⟨fun hlt => ?_, fun hgt => ?_, ?_⟩
  · have hn : ¬(|s - t| > epsilon) := lt_asymm hlt
    simp [pid_calc, hn]
  · simp [pid_calc, hgt]
  · simp [pid_calc]

/-- Witness for C6 on concrete calls with the error above and below
epsilon. -/
theorem C6_witness :
    (pid_calc pid_init 100 0).1.integral = pid_init.integral + (100 - 0) * dt ∧
    (pid_calc pid_init 0 0).1.integral = pid_init.integral := by
  constructor
  · exact (C6_pid_integral pid_init 100 0).2.1 (by norm_num [epsilon])
  · exact (C6_pid_integral pid_init 0 0).1 (by norm_num [epsilon])

/-- Claim C5, evaluated at the failing input: a pid_calc update on the
freshly initialized controller with setpoint 0 and measurement 100
returns exactly -4, the hard-coded clamp floor MIN, which lies
outside the controller's configured saturation bounds
[output_min, output_max]; the code clamps on the hard-coded MIN and
MAX rather than on the configured fields. -/
theorem C5_pid_clamp_eval :
    (pid_calc pid_init 0 100).2 = -4 ∧
    (pid_calc pid_init 0 100).2 < pid_init.min ∧
    pid_init.min = PID_MIN_OUTPUT ∧ pid_init.max = PID_MAX_OUTPUT ∧
    MIN = -4 ∧ MAX = 4 := by
  refine ⟨?_, ?_, rfl, rfl, rfl, rfl⟩ <;>
    norm_num [pid_calc, pid_init, PID_Kp, PID_Ki, PID_Kd, PID_MIN_OUTPUT,
      epsilon, dt, MAX, MIN]

/-- Claim C4, amended: a 100 ms tick on a heater in Shutdown keeps the
state Shutdown and touches nothing else of the heater or sensor,
except that it resets the recorded code field to HEATER_OK at entry
(the fault code is therefore not preserved by ticking). -/
theorem C4_amended (h : Heater) (sen : TemperatureSensor)
    (hs : h.state = HEATER_SHUTDOWN) :
    heater_callback h sen = ({h with code := HEATER_OK}, sen, HEATER_OK) := by
  simp [heater_callback, hs]

/-- Witness for C4 at a concrete shut-down heater. -/
theorem C4_witness :
    heater_callback c4heater c1sensor
      = ({c4heater with code := HEATER_OK}, c1sensor, HEATER_OK) :=
  C4_amended c4heater c1sensor rfl

/-- Counterexample to claim C4 as stated: one further tick on a heater
shut down with fault code AmbientTimedOut leaves the state Shutdown
but does not leave the fault code unchanged - it is reset to
HEATER_OK. -/
theorem C4_counterexample :
    (heater_callback c4heater c1sensor).1.state = HEATER_SHUTDOWN ∧
    (heater_callback c4heater c1sensor).1.code ≠ HEATER_AMBIENT_TIMED_OUT :=
  of_decide_eq_true rfl

/-- Counterexample to claim C1 as stated: in the ambient-timeout
scenario the heater is still Heating after 300 ticks; it has not
shut down with fault code AmbientTimedOut.  The first tick only
moves On into Heating without accruing regulation time, and the
shutdown comparison requires the timer to exceed the timeout
strictly. -/
lemma c1run_succ (n : ℕ) : c1run (n + 1)
    = ((heater_callback (c1run n).1 (c1run n).2).1,
       (heater_callback (c1run n).1 (c1run n).2).2.1) := rfl

lemma c1run_heating : ∀ n, 1 ≤ n → n ≤ 301 →
    c1run n = (c1heating (n - 1), c1sensor) := by
  intro n
  induction n with
  | zero => exact fun hc _ => absurd hc (by norm_num)
  | succ m ih =>
    intro _ hle
    rcases Nat.eq_zero_or_pos m with hm0 | hmpos
    · subst hm0
      have e0 : c1run 0 = (c1heater, c1sensor) := rfl
      rw [c1run_succ, e0]
      simp [heater_callback, c1heater, c1sensor, heater_init, sensor_init,
            sensor_start_temperature_reading, sensor_get_state,
            sensor_get_temperature, c1heating]
    · have hm : c1run m = (c1heating (m - 1), c1sensor) := ih (by omega) (by omega)
      have hc : ((m - 1 : ℕ) : ℚ) = (m : ℚ) - 1 := by
        exact_mod_cast Nat.cast_sub hmpos
      have htt : ((m - 1 : ℕ) : ℚ) / 10 + (10:ℚ)⁻¹ = (m : ℚ) / 10 := by
        rw [hc]; ring
      have hm300 : (m : ℚ) ≤ 300 := by
        exact_mod_cast (show m ≤ 300 by omega)
      have hno1 : ¬((30:ℚ) < (m : ℚ) / 10) := by
        rw [not_lt, div_le_iff₀ (show (0:ℚ) < 10 by norm_num)]
        linarith
      have hno2 : ¬((300:ℚ) < (m : ℚ) / 10) := by
        rw [not_lt, div_le_iff₀ (show (0:ℚ) < 10 by norm_num)]
        linarith
      rw [c1run_succ, hm]
      simp [heater_callback, c1heating, c1sensor, sensor_init,
            sensor_start_temperature_reading, sensor_get_state,
            sensor_get_temperature, HEATER_TICK_SECONDS,
            HEATER_AMBIENT_TIMEOUT, HEATER_REGULATION_TIMEOUT,
            HEATER_AMBIENT_TEMPERATURE, htt, hno1, hno2,
            (show (20:ℚ) < 50 by norm_num), (show (20:ℚ) < 200 by norm_num)]

/-- Claim C1, amended: in the ambient-timeout scenario the heater is
still Heating after 301 ticks and reaches Shutdown with fault code
AmbientTimedOut after exactly 302 ticks (one tick for the On to
Heating transition plus 301 Heating ticks until the regulation timer
of 30.1 s first strictly exceeds the 30 s ambient timeout). -/
theorem C1_ambient_timeout :
    (c1run 301).1.state = HEATER_HEATING ∧
    (c1run 302).1.state = HEATER_SHUTDOWN ∧
    (c1run 302).1.code = HEATER_AMBIENT_TIMED_OUT := by
  have h := c1run_heating 301 (by norm_num) (by norm_num)
  have hgt : (30:ℚ) < ((300 : ℚ)) / 10 + (10:ℚ)⁻¹ := by norm_num
  have e : (heater_callback (c1heating 300) c1sensor).1.state = HEATER_SHUTDOWN ∧
      (heater_callback (c1heating 300) c1sensor).1.code = HEATER_AMBIENT_TIMED_OUT := by
    simp [heater_callback, c1heating, c1sensor, sensor_init,
          sensor_start_temperature_reading, sensor_get_state,
          sensor_get_temperature, HEATER_TICK_SECONDS,
          HEATER_AMBIENT_TIMEOUT, HEATER_AMBIENT_TEMPERATURE, hgt,
          (show (20:ℚ) < 50 by norm_num)]
  refine ⟨by rw [h]; rfl, ?_, ?_⟩
  · rw [show (302:ℕ) = 301 + 1 from rfl, c1run_succ, h]; exact e.1
  · rw [show (302:ℕ) = 301 + 1 from rfl, c1run_succ, h]; exact e.2

/-- Counterexample to claim C1 as stated: in the ambient-timeout
scenario the heater is still Heating after 300 ticks; it has not
shut down with fault code AmbientTimedOut.  The first tick only
moves On into Heating without accruing regulation time, and the
shutdown comparison requires the timer to exceed the timeout
strictly. -/
theorem C1_counterexample :
    (c1run 300).1.state = HEATER_HEATING ∧
    ¬((c1run 300).1.state = HEATER_SHUTDOWN ∧
      (c1run 300).1.code = HEATER_AMBIENT_TIMED_OUT) := by
  have h := c1run_heating 300 (by norm_num) (by norm_num)
  constructor
  · rw [h]; rfl
  · intro hcon
    rw [h] at hcon
    simp [c1heating] at hcon

lemma pollIter_spec (k : ℕ) :
    (pollIter k).tick_flag = false ∧
    (pollIter k).tick_100ms_count = 10 - k % 10 ∧
    (pollIter k).tick_1sec_count = 10 - (k / 10) % 10 ∧
    (pollIter k).n_10ms = k ∧
    (pollIter k).n_100ms = k / 10 ∧
    (pollIter k).n_1sec = k / 100 := by
  induction k with
  | zero => exact ⟨rfl, rfl, rfl, rfl, rfl, rfl⟩
  | succ n ih =>
    obtain ⟨h1, h2, h3, h4, h5, h6⟩ := ih
    have estep : pollIter (n + 1) = pollTick (pollIter n) := rfl
    by_cases h9 : n % 10 = 9
    · have e1 : dec8 ((pollIter n).tick_100ms_count) = 0 := by
        rw [h2, h9]; rfl
      by_cases h99 : (n / 10) % 10 = 9
      · have e2 : dec8 ((pollIter n).tick_1sec_count) = 0 := by
          rw [h3, h99]; rfl
        have hstep : pollIter (n + 1) = ⟨false, 10, 10, n + 1, n / 10 + 1, n / 100 + 1⟩ := by
          rw [estep]
          simp [pollTick, tick_callback, e1, e2, h4, h5, h6]
        rw [hstep]
        refine ⟨rfl, ?_, ?_, rfl, ?_, ?_⟩
        · show 10 = 10 - (n + 1) % 10
          omega
        · show 10 = 10 - ((n + 1) / 10) % 10
          omega
        · show n / 10 + 1 = (n + 1) / 10
          omega
        · show n / 100 + 1 = (n + 1) / 100
          omega
      · have e2v : dec8 ((pollIter n).tick_1sec_count) = 9 - (n / 10) % 10 := by
          rw [h3]; unfold dec8; omega
        have hne9 : ¬(9 - (n / 10) % 10 = 0) := by omega
        have hstep : pollIter (n + 1)
            = ⟨false, 10, 9 - (n / 10) % 10, n + 1, n / 10 + 1, n / 100⟩ := by
          rw [estep]
          simp [pollTick, tick_callback, e1, e2v, hne9, h4, h5, h6]
        rw [hstep]
        refine ⟨rfl, ?_, ?_, rfl, ?_, ?_⟩
        · show 10 = 10 - (n + 1) % 10
          omega
        · show 9 - (n / 10) % 10 = 10 - ((n + 1) / 10) % 10
          omega
        · show n / 10 + 1 = (n + 1) / 10
          omega
        · show n / 100 = (n + 1) / 100
          omega
    · have e1v : dec8 ((pollIter n).tick_100ms_count) = 9 - n % 10 := by
        rw [h2]; unfold dec8; omega
      have hne9 : ¬(9 - n % 10 = 0) := by omega
      have hstep : pollIter (n + 1)
          = ⟨false, 9 - n % 10, 10 - (n / 10) % 10, n + 1, n / 10, n / 100⟩ := by
        rw [estep]
        simp [pollTick, tick_callback, e1v, hne9, h3, h4, h5, h6]
      rw [hstep]
      refine ⟨rfl, ?_, ?_, rfl, ?_, ?_⟩
      · show 9 - n % 10 = 10 - (n + 1) % 10
        omega
      · show 10 - (n / 10) % 10 = 10 - ((n + 1) / 10) % 10
        omega
      · show n / 10 = (n + 1) / 10
        omega
      · show n / 100 = (n + 1) / 100
        omega

/-- Claim C7: from the initial tick state (both down counters at 10),
10 polls with the flag raised run the 100 ms handler exactly once
and 100 such polls run the 1 s handler exactly once; the 10 ms
handler runs on every poll, and both counters follow the down-count
law staying within the interval from 0 to 10, resetting to 10 on
reaching 0. -/
theorem C7_tick_scheduler :
    (pollIter 10).n_100ms = 1 ∧ (pollIter 100).n_1sec = 1 ∧
    (∀ k, (pollIter k).n_10ms = k) ∧
    (∀ k, (pollIter k).tick_100ms_count = 10 - k % 10 ∧
      (pollIter k).tick_1sec_count = 10 - (k / 10) % 10 ∧
      (pollIter k).tick_100ms_count ≤ 10 ∧
      (pollIter k).tick_1sec_count ≤ 10) := by
  refine ⟨?_, ?_, fun k => (pollIter_spec k).2.2.2.1, fun k => ?_⟩
  · rw [(pollIter_spec 10).2.2.2.2.1]
  · rw [(pollIter_spec 100).2.2.2.2.2]
  · obtain ⟨-, hb, hc, -, -, -⟩ := pollIter_spec k
    exact ⟨hb, hc, by omega, by omega⟩

/-- Witness for C7 instantiating the every-poll clause at 23 polls. -/
theorem C7_witness : (pollIter 23).n_10ms = 23 :=
  C7_tick_scheduler.2.2.1 23

lemma sloop_none_of (v p : ℚ) (draw : ℕ → ℚ) :
    ∀ i k s, ¬(|s - p| < v) →
      (∀ j, j + 1 < i → ¬(|draw (k + j) - p| < v)) →
      sensorSampleLoop v p draw s i k = none := by
  intro i
  induction i with
  | zero => intro k s hs hj; rfl
  | succ n ih =>
    intro k s hs hj
    simp only [sensorSampleLoop]
    rw [if_neg hs]
    cases n with
    | zero => rfl
    | succ m =>
      apply ih (k + 1) (draw k)
      · simpa using hj 0 (by omega)
      · intro j hjlt
        have h1 := hj (j + 1) (by omega)
        have e : k + (j + 1) = k + 1 + j := by omega
        rw [e] at h1
        exact h1

lemma sloop_accept_at (v p : ℚ) (draw : ℕ → ℚ) :
    ∀ j i k s, ¬(|s - p| < v) → j + 2 ≤ i →
      (∀ m, m < j → ¬(|draw (k + m) - p| < v)) →
      |draw (k + j) - p| < v →
      sensorSampleLoop v p draw s i k = some (draw (k + j)) := by
  intro j
  induction j with
  | zero =>
    intro i k s hs hi hm hacc
    obtain ⟨i2, rfl⟩ : ∃ t, i = t + 2 := ⟨i - 2, by omega⟩
    have hk : |draw k - p| < v := by simpa using hacc
    simp only [sensorSampleLoop]
    rw [if_neg hs, if_pos hk]
    simp
  | succ j ih =>
    intro i k s hs hi hm hacc
    obtain ⟨i1, rfl⟩ : ∃ t, i = t + 1 := ⟨i - 1, by omega⟩
    have hd0 : ¬(|draw k - p| < v) := by simpa using hm 0 (by omega)
    simp only [sensorSampleLoop]
    rw [if_neg hs]
    have hacc2 : |draw (k + 1 + j) - p| < v := by
      have e : k + 1 + j = k + (j + 1) := by omega
      rw [e]; exact hacc
    have hm2 : ∀ t, t < j → ¬(|draw (k + 1 + t) - p| < v) := by
      intro t htl
      have e : k + 1 + t = k + (t + 1) := by omega
      rw [e]; exact hm (t + 1) (by omega)
    have hrec := ih i1 (k + 1) (draw k) hd0 (by omega) hm2 hacc2
    rw [hrec]
    have e : k + 1 + j = k + (j + 1) := by omega
    rw [e]

/-- Claim C2, amended: with a retry budget of R the loop examines the
original sample and at most R - 1 retry samples; an in-bounds sample
supplied on retry R - 1, the last one examined, is still accepted
(returned and recorded as previous_sample), while if the original
sample and those R - 1 retries are all out of bounds the sensor
reports the unrecoverable-fault sentinel, leaving previous_sample
unchanged - the R-th retry sample is drawn but never examined. -/
theorem C2_retry_budget (sen : TemperatureSensor) (draw : ℕ → ℚ)
    (hr : 0 < sen.retries) :
    ((∀ j, j < sen.retries - 1 →
        ¬(|draw j - sen.previous_temp| < sen.variance)) →
      |draw (sen.retries - 1) - sen.previous_temp| < sen.variance →
      sensorSample sen draw false
        = (draw (sen.retries - 1), draw (sen.retries - 1))) ∧
    ((∀ j, j < sen.retries →
        ¬(|draw j - sen.previous_temp| < sen.variance)) →
      sensorSample sen draw false
        = (HOTTER_THAN_THE_SUN, sen.previous_temp)) := by
  constructor
  · intro hbad hgood
    obtain ⟨r, hre⟩ : ∃ r, sen.retries = r + 1 := ⟨sen.retries - 1, by omega⟩
    rcases Nat.eq_zero_or_pos r with hr0 | hrp
    · subst hr0
      have hgood0 : |draw 0 - sen.previous_temp| < sen.variance := by
        simpa [hre] using hgood
      simp [sensorSample, sensorSampleLoop, hre, hgood0]
    · have hs : ¬(|draw 0 - sen.previous_temp| < sen.variance) := by
        have := hbad 0 (by omega)
        exact this
      have hm : ∀ m, m < r - 1 → ¬(|draw (1 + m) - sen.previous_temp| < sen.variance) := by
        intro m hml
        have hb := hbad (m + 1) (by omega)
        have e : (1:ℕ) + m = m + 1 := by omega
        rw [e]
        exact hb
      have hacc : |draw (1 + (r - 1)) - sen.previous_temp| < sen.variance := by
        have e : (1:ℕ) + (r - 1) = r := by omega
        rw [e]
        have e2 : sen.retries - 1 = r := by omega
        rw [e2] at hgood
        exact hgood
      have hl := sloop_accept_at sen.variance sen.previous_temp draw (r - 1)
        (r + 1) 1 (draw 0) hs (by omega) hm hacc
      have hidx : (1:ℕ) + (r - 1) = r := by omega
      rw [hidx] at hl
      have e2 : sen.retries - 1 = r := by omega
      rw [e2]
      simp [sensorSample, hre, hl]
  · intro hbad
    have hs : ¬(|draw 0 - sen.previous_temp| < sen.variance) := hbad 0 hr
    have hj : ∀ j, j + 1 < sen.retries →
        ¬(|draw (1 + j) - sen.previous_temp| < sen.variance) := by
      intro j hjl
      have hb := hbad (j + 1) (by omega)
      have e : (1:ℕ) + j = j + 1 := by omega
      rw [e]
      exact hb
    have hl := sloop_none_of sen.variance sen.previous_temp draw
      sen.retries 1 (draw 0) hs hj
    simp [sensorSample, hl]

/-- Witness for C2 at a concrete budget of two retries: the original
sample is out of bounds and the in-bounds sample on the first (and
last examined) retry is accepted and recorded. -/
theorem C2_witness : sensorSample w2sensor w2draw false = (0, 0) := by
  have hr : 0 < w2sensor.retries := by norm_num [w2sensor, sensor_init]
  have hbad : ∀ j, j < w2sensor.retries - 1 →
      ¬(|w2draw j - w2sensor.previous_temp| < w2sensor.variance) := by
    intro j hj
    have hj0 : j = 0 := by
      simp [w2sensor, sensor_init] at hj
      omega
    subst hj0
    norm_num [w2draw, w2sensor, sensor_init]
  have hgood : |w2draw (w2sensor.retries - 1) - w2sensor.previous_temp|
      < w2sensor.variance := by
    norm_num [w2draw, w2sensor, sensor_init]
  have h := (C2_retry_budget w2sensor w2draw hr).1 hbad hgood
  rw [h]
  rfl

/-- Counterexample to claim C2 as stated: with a retry budget of 3 and
the in-bounds sample arriving exactly on the third and last allowed
retry, the sampler nevertheless reports the unrecoverable-fault
sentinel (which exceeds SURFACE_OF_THE_SUN and so drives the sensor
to Shutdown) instead of accepting the sample. -/
theorem C2_counterexample :
    sensorSample c2sensor c2draw false = (HOTTER_THAN_THE_SUN, 0) ∧
    |c2draw 3 - c2sensor.previous_temp| < c2sensor.variance ∧
    HOTTER_THAN_THE_SUN > SURFACE_OF_THE_SUN := by
  refine ⟨?_, ?_, ?_⟩
  · have hs : ¬(|c2draw 0 - c2sensor.previous_temp| < c2sensor.variance) := by
      norm_num [c2draw, c2sensor, sensor_init]
    have hj : ∀ j, j + 1 < c2sensor.retries →
        ¬(|c2draw (1 + j) - c2sensor.previous_temp| < c2sensor.variance) := by
      intro j hjl
      have hj2 : 1 + j = 1 ∨ 1 + j = 2 := by
        simp [c2sensor, sensor_init] at hjl
        omega
      rcases hj2 with e | e <;> rw [e] <;>
        norm_num [c2draw, c2sensor, sensor_init]
    have hl := sloop_none_of c2sensor.variance c2sensor.previous_temp c2draw
      c2sensor.retries 1 (c2draw 0) hs hj
    have hp : c2sensor.previous_temp = 0 := rfl
    rw [hp] at hl
    simp [sensorSample, hp, hl]
  · norm_num [c2draw, c2sensor, sensor_init]
  · norm_num [HOTTER_THAN_THE_SUN, SURFACE_OF_THE_SUN]

lemma sensorSample_accept (sen : TemperatureSensor) (x : ℚ)
    (hr : 0 < sen.retries)
    (hacc : |x - sen.previous_temp| < sen.variance) :
    sensorSample sen (fun _ => x) false = (x, x) := by
  obtain ⟨r, hre⟩ : ∃ r, sen.retries = r + 1 := ⟨sen.retries - 1, by omega⟩
  simp [sensorSample, hre, sensorSampleLoop, hacc]

/-- Claim C3: starting a fresh window in a non-noop state, with every
sample of the window accepted by the variance filter and none above
the unrecoverable-fault level, the first samples_required - 1 ticks
leave the state unchanged returning the still-sampling code with the
sample counter advancing, and the samples_required-th tick records
the arithmetic mean of the accepted samples as the confirmed
temperature and classifies it: above the disconnect threshold it
yields HasNoData with code Disconnected, below the no-power
threshold HasNoData with code NoPower, otherwise HasData. -/
theorem C3_sampling_window (sen : TemperatureSensor) (a : ℕ → ℚ)
    (hu : sen.state ≠ SENSOR_UNINIT) (hsd : sen.state ≠ SENSOR_SHUTDOWN)
    (h0 : sen.samples = 0) (hN : 0 < sen.samples_per_reading)
    (h255 : sen.samples_per_reading ≤ 255) (hr : 0 < sen.retries)
    (hvar : ∀ t, t < sen.samples_per_reading → 1 ≤ t →
      |a t - a (t - 1)| < sen.variance)
    (hsun : ∀ t, t < sen.samples_per_reading → a t ≤ SURFACE_OF_THE_SUN) :
    ((sensorRun sen a sen.samples_per_reading).temperature
        = windowMean a sen.samples_per_reading) ∧
    (windowMean a sen.samples_per_reading > SENSOR_DISCONNECTED_TEMPERATURE →
      (sensorRun sen a sen.samples_per_reading).state = SENSOR_HAS_NO_DATA ∧
      (sensorRun sen a sen.samples_per_reading).code = SENSOR_DISCONNECTED) ∧
    (¬(windowMean a sen.samples_per_reading > SENSOR_DISCONNECTED_TEMPERATURE) →
      windowMean a sen.samples_per_reading < SENSOR_NO_POWER_TEMPERATURE →
      (sensorRun sen a sen.samples_per_reading).state = SENSOR_HAS_NO_DATA ∧
      (sensorRun sen a sen.samples_per_reading).code = SENSOR_NO_POWER) ∧
    (¬(windowMean a sen.samples_per_reading > SENSOR_DISCONNECTED_TEMPERATURE) →
      ¬(windowMean a sen.samples_per_reading < SENSOR_NO_POWER_TEMPERATURE) →
      (sensorRun sen a sen.samples_per_reading).state = SENSOR_HAS_DATA ∧
      (sensorRun sen a sen.samples_per_reading).code = SENSOR_OK) ∧
    (∀ t, t < sen.samples_per_reading → 1 ≤ t →
      (sensorRun sen a t).state = sen.state ∧
      (sensorRun sen a t).code = SENSOR_OK ∧
      (sensorRun sen a t).samples = t) := by
  have inv : ∀ t, t < sen.samples_per_reading → 1 ≤ t →
      sensorRun sen a t = midSensor sen a t := by
    intro t
    induction t with
    | zero => intro _ hc; exact absurd hc (by norm_num)
    | succ u ihu =>
      intro hlt _
      rcases Nat.eq_zero_or_pos u with hu0 | hup
      · subst hu0
        have e : sensorRun sen a 1
            = (sensor_callback (sensorRun sen a 0) (fun _ => a 0)).1 := rfl
        have e0 : sensorRun sen a 0 = sen := rfl
        rw [e, e0]
        have hnotsun : ¬(a 0 > SURFACE_OF_THE_SUN) := not_lt.mpr (hsun 0 hN)
        have h1lt : 1 < sen.samples_per_reading := by omega
        simp [sensor_callback, sensorSample, midSensor, hu, hsd, h0, hnotsun,
          h1lt]
      · have hm := ihu (by omega) hup
        have e : sensorRun sen a (u + 1)
            = (sensor_callback (sensorRun sen a u) (fun _ => a u)).1 := rfl
        rw [e, hm]
        have hvv : |a u - a (u - 1)| < sen.variance := hvar u (by omega) hup
        have hnotsun : ¬(a u > SURFACE_OF_THE_SUN) :=
          not_lt.mpr (hsun u (by omega))
        have haccept : sensorSample (midSensor sen a u)
            (fun _ => a u) false = (a u, a u) := by
          apply sensorSample_accept
          · simpa [midSensor] using hr
          · simpa [midSensor] using hvv
        have hbeq : (u == 0) = false := by
          simp [Nat.pos_iff_ne_zero.mp hup]
        have hmod : (u + 1) % 256 = u + 1 := Nat.mod_eq_of_lt (by omega)
        simp only [midSensor] at haccept
        simp [sensor_callback, midSensor, hu, hsd, hbeq, haccept, hnotsun,
          hmod, hlt, Finset.sum_range_succ]
  obtain ⟨q, hq⟩ : ∃ q, sen.samples_per_reading = q + 1 :=
    ⟨sen.samples_per_reading - 1, by omega⟩
  have efin : sensorRun sen a (q + 1)
      = (sensor_callback (sensorRun sen a q) (fun _ => a q)).1 := rfl
  have key : (sensorRun sen a sen.samples_per_reading).temperature
        = windowMean a sen.samples_per_reading ∧
      (sensorRun sen a sen.samples_per_reading).state
        = (if windowMean a sen.samples_per_reading
              > SENSOR_DISCONNECTED_TEMPERATURE then SENSOR_HAS_NO_DATA
           else if windowMean a sen.samples_per_reading
              < SENSOR_NO_POWER_TEMPERATURE then SENSOR_HAS_NO_DATA
           else SENSOR_HAS_DATA) ∧
      (sensorRun sen a sen.samples_per_reading).code
        = (if windowMean a sen.samples_per_reading
              > SENSOR_DISCONNECTED_TEMPERATURE then SENSOR_DISCONNECTED
           else if windowMean a sen.samples_per_reading
              < SENSOR_NO_POWER_TEMPERATURE then SENSOR_NO_POWER
           else SENSOR_OK) := by
    rcases Nat.eq_zero_or_pos q with hq0 | hqp
    · subst hq0
      have hnotsun : ¬(a 0 > SURFACE_OF_THE_SUN) := not_lt.mpr (hsun 0 hN)
      have e0 : sensorRun sen a 0 = sen := rfl
      have hnlt1 : ¬(1 < sen.samples_per_reading) := by omega
      rw [hq, efin, e0]
      simp [sensor_callback, sensorSample, hu, hsd, h0, hnotsun, hnlt1,
        windowMean]
      split_ifs <;> exact ⟨rfl, rfl, rfl⟩
    · have hpre := inv q (by omega) hqp
      have hvv : |a q - a (q - 1)| < sen.variance := hvar q (by omega) hqp
      have hnotsun : ¬(a q > SURFACE_OF_THE_SUN) :=
        not_lt.mpr (hsun q (by omega))
      have haccept : sensorSample (midSensor sen a q)
          (fun _ => a q) false = (a q, a q) := by
        apply sensorSample_accept
        · simpa [midSensor] using hr
        · simpa [midSensor] using hvv
      have hbeq : (q == 0) = false := by
        simp [Nat.pos_iff_ne_zero.mp hqp]
      have hmod : (q + 1) % 256 = q + 1 := Nat.mod_eq_of_lt (by omega)
      have hnlt : ¬(q + 1 < sen.samples_per_reading) := by omega
      rw [hq, efin, hpre]
      simp only [midSensor] at haccept
      simp [sensor_callback, midSensor, hu, hsd, hbeq, haccept, hnotsun,
        hmod, hnlt, windowMean, Finset.sum_range_succ]
      split_ifs <;> exact ⟨rfl, rfl, rfl⟩
  refine ⟨key.1, fun hgt => ?_, fun hn1 hlt2 => ?_, fun hn1 hn2 => ?_,
    fun t ht h1t => ?_⟩
  · exact ⟨by rw [key.2.1, if_pos hgt], by rw [key.2.2, if_pos hgt]⟩
  · exact ⟨by rw [key.2.1, if_neg hn1, if_pos hlt2],
      by rw [key.2.2, if_neg hn1, if_pos hlt2]⟩
  · exact ⟨by rw [key.2.1, if_neg hn1, if_neg hn2],
      by rw [key.2.2, if_neg hn1, if_neg hn2]⟩
  · rw [inv t ht h1t]
    exact ⟨rfl, rfl, rfl⟩

/-- Witness for C3 on a concrete two-sample window of accepted samples
of 25 degrees: one mid-window tick keeps HasNoData with the
still-sampling code, the second tick confirms the mean 25 and lands
in HasData. -/
theorem C3_witness :
    (sensorRun c3sensor c3a 2).state = SENSOR_HAS_DATA ∧
    (sensorRun c3sensor c3a 2).code = SENSOR_OK ∧
    (sensorRun c3sensor c3a 2).temperature = 25 ∧
    (sensorRun c3sensor c3a 1).state = SENSOR_HAS_NO_DATA ∧
    (sensorRun c3sensor c3a 1).code = SENSOR_OK ∧
    (sensorRun c3sensor c3a 1).samples = 1 := by
  have hu : c3sensor.state ≠ SENSOR_UNINIT := by simp [c3sensor, sensor_init]
  have hsd : c3sensor.state ≠ SENSOR_SHUTDOWN := by
    simp [c3sensor, sensor_init]
  have h0 : c3sensor.samples = 0 := rfl
  have hN : 0 < c3sensor.samples_per_reading := by
    norm_num [c3sensor, sensor_init]
  have h255 : c3sensor.samples_per_reading ≤ 255 := by
    norm_num [c3sensor, sensor_init]
  have hr : 0 < c3sensor.retries := by norm_num [c3sensor, sensor_init]
  have hvar : ∀ t, t < c3sensor.samples_per_reading → 1 ≤ t →
      |c3a t - c3a (t - 1)| < c3sensor.variance := by
    intro t _ _
    norm_num [c3a, c3sensor, sensor_init]
  have hsun : ∀ t, t < c3sensor.samples_per_reading →
      c3a t ≤ SURFACE_OF_THE_SUN := by
    intro t _
    norm_num [c3a, SURFACE_OF_THE_SUN]
  have H := C3_sampling_window c3sensor c3a hu hsd h0 hN h255 hr hvar hsun
  have hN2 : c3sensor.samples_per_reading = 2 := rfl
  rw [hN2] at H
  have hmean : windowMean c3a 2 = 25 := by
    norm_num [windowMean, c3a, Finset.sum_range_succ]
  have hnd : ¬(windowMean c3a 2 > SENSOR_DISCONNECTED_TEMPERATURE) := by
    rw [hmean]
    norm_num [SENSOR_DISCONNECTED_TEMPERATURE]
  have hnp : ¬(windowMean c3a 2 < SENSOR_NO_POWER_TEMPERATURE) := by
    rw [hmean]
    norm_num [SENSOR_NO_POWER_TEMPERATURE]
  have hdata := H.2.2.2.1 hnd hnp
  have hmid := H.2.2.2.2 1 (by norm_num) (by norm_num)
  refine ⟨hdata.1, hdata.2, ?_, ?_, hmid.2.1, hmid.2.2⟩
  · rw [H.1, hmean]
  · rw [hmid.1]
    rfl

end TinyG
